import Mathlib

/-!
Verification development for the slidev-builder content pipeline.

This file gives a shallow embedding of the four-stage slide-generation core
(content intelligence, layout optimization, asset intelligence, style
orchestration, and the orchestrator that combines them) and proves or refutes
the specification claims about it.

JavaScript strings are modelled by Lean `String`; the handful of JS string
primitives the pipeline uses (`toLowerCase`, `includes`, `split`, `trim`,
`join`) are re-implemented here by structural recursion over character lists so
that all definitions evaluate inside the kernel.  JS numbers appearing in the
scoring logic are modelled by `ℚ` (all arithmetic in the source is on small
decimal constants).  JS object identity (used by `Array.prototype.includes` in
the asset-curation step) is modelled by tagging list elements with their
position.
-/

namespace JsString

/-- JS `String.prototype.startsWith` on character lists. -/
def listStartsWith : List Char → List Char → Bool
  | [], _ => true
  | _ :: _, [] => false
  | c :: cs, d :: ds => c == d && listStartsWith cs ds

/-- substring containment on character lists. -/
def listContainsSub (sub : List Char) : List Char → Bool
  | [] => listStartsWith sub []
  | c :: cs => listStartsWith sub (c :: cs) || listContainsSub sub cs

/-- JS `String.prototype.includes`. -/
def jsIncludes (s sub : String) : Bool := listContainsSub sub.toList s.toList

/-- JS `String.prototype.toLowerCase` (ASCII, which is all the pipeline uses). -/
def jsToLower (s : String) : String := String.mk (s.toList.map Char.toLower)

/-- Helper for `jsSplitChar`: splits on a single separator character. -/
def splitCharGo (sep : Char) : List Char → List Char → List String
  | [], acc => [String.mk acc.reverse]
  | c :: cs, acc =>
    if c == sep then String.mk acc.reverse :: splitCharGo sep cs []
    else splitCharGo sep cs (c :: acc)

/-- JS `s.split(sep)` for a one-character separator: `"".split(" ") = [""]`,
`"a  b".split(" ") = ["a", "", "b"]`. -/
def jsSplitChar (sep : Char) (s : String) : List String := splitCharGo sep s.toList []

mutual

/-- Helper for `jsSplitRuns`: accumulating scan outside a separator run. -/
def splitRunsGo (p : Char → Bool) : List Char → List Char → List String
  | [], acc => [String.mk acc.reverse]
  | c :: cs, acc =>
    if p c then String.mk acc.reverse :: afterSep p cs
    else splitRunsGo p cs (c :: acc)

/-- Helper for `jsSplitRuns`: skipping the remainder of a separator run. -/
def afterSep (p : Char → Bool) : List Char → List String
  | [] => [""]
  | c :: cs => if p c then afterSep p cs else splitRunsGo p cs [c]

end

/-- JS `s.split(regex)` where the regex is a character class with `+`
(one-or-more): consecutive separators split once, as in `"a.!b" → ["a","b"]`,
with leading/trailing separators contributing empty fields. -/
def jsSplitRuns (p : Char → Bool) (s : String) : List String := splitRunsGo p s.toList []

/-- JS `String.prototype.trim`. -/
def jsTrim (s : String) : String :=
  String.mk (((s.toList.dropWhile Char.isWhitespace).reverse.dropWhile Char.isWhitespace).reverse)

/-- JS `[...new Set(l)]`: deduplication keeping the first occurrence. -/
def jsDedup : List String → List String
  | [] => []
  | a :: l => a :: jsDedup (l.filter (fun b => ¬ b = a))
termination_by l => l.length
decreasing_by
  simp only [List.length_cons]
  exact Nat.lt_succ_of_le (List.length_filter_le _ _)

end JsString

open JsString

/-! ## Layer 1: Content Intelligence (`ContentIntelligenceEngine`) -/

structure SlideRecommendation where
  slide_type : String
  priority : Nat
  estimated_time : Nat
  content_points : List String
deriving DecidableEq, Repr

structure ContentStructure where
  narrative_flow : String
  information_hierarchy : String
  cognitive_load_score : Nat
  messaging_framework : String
deriving DecidableEq, Repr

structure ContentAnalysisResult where
  content_structure : ContentStructure
  key_messages : List String
  audience_adaptation : String
  slide_recommendations : List SlideRecommendation
  content_density : String
deriving DecidableEq, Repr

namespace ContentIntelligenceEngine

/-- The importance vocabulary of `extractKeyMessages`. -/
def keyIndicators : List String :=
  ["key", "important", "critical", "essential", "primary", "main",
   "result", "outcome", "benefit", "advantage", "value", "impact"]

/-- `ContentIntelligenceEngine.extractKeyMessages`. -/
def extractKeyMessages (content : String) : List String :=
  let sentences := (jsSplitRuns (fun c => c == '.' || c == '!' || c == '?') content).filter
    (fun s => 10 < (jsTrim s).length)
  ((sentences.filter (fun sentence =>
      keyIndicators.any (fun indicator => jsIncludes (jsToLower sentence) indicator))).take 5).map
    jsTrim

/-- The unconditional opening recommendation pushed first. -/
def heroRecommendation : SlideRecommendation :=
  { slide_type := "hero", priority := 1, estimated_time := 30,
    content_points := ["Title", "Subtitle", "Key value proposition"] }

/-- The recommendation pushed when the content mentions a problem. -/
def problemRecommendation : SlideRecommendation :=
  { slide_type := "problem", priority := 2, estimated_time := 60,
    content_points := ["Problem statement", "Current state challenges", "Impact quantification"] }

/-- The recommendation pushed when the content mentions a solution. -/
def solutionRecommendation : SlideRecommendation :=
  { slide_type := "solution", priority := 3, estimated_time := 90,
    content_points := ["Solution overview", "Key features", "Implementation approach"] }

/-- The recommendation pushed when the content mentions results. -/
def evidenceRecommendation : SlideRecommendation :=
  { slide_type := "evidence", priority := 4, estimated_time := 60,
    content_points := ["Key results", "Success metrics", "Validation points"] }

/-- The unconditional call-to-action recommendation pushed last. -/
def actionRecommendation : SlideRecommendation :=
  { slide_type := "action", priority := 5, estimated_time := 45,
    content_points := ["Next steps", "Call to action", "Contact information"] }

/-- `ContentIntelligenceEngine.generateSlideRecommendations`.  The `audience`
parameter is, as in the source, accepted but not used. -/
def generateSlideRecommendations (content : String) (audience : String) : List SlideRecommendation :=
  let recommendations : List SlideRecommendation := [heroRecommendation]
  let recommendations :=
    if jsIncludes (jsToLower content) "problem" || jsIncludes (jsToLower content) "challenge" then
      recommendations ++ [problemRecommendation]
    else recommendations
  let recommendations :=
    if jsIncludes (jsToLower content) "solution" || jsIncludes (jsToLower content) "approach" then
      recommendations ++ [solutionRecommendation]
    else recommendations
  let recommendations :=
    if jsIncludes (jsToLower content) "result" || jsIncludes (jsToLower content) "benefit" then
      recommendations ++ [evidenceRecommendation]
    else recommendations
  recommendations ++ [actionRecommendation]

/-- `ContentIntelligenceEngine.analyzeContent`.  (The source also computes a
`sentences` count that it never uses; it is omitted.) -/
def analyzeContent (content : String) (audience : String) : ContentAnalysisResult :=
  let words := (jsSplitChar ' ' content).length
  let cognitive_load_score := min 10 (words / 50)
  let narrative_flow := if audience == "executive" then "pyramid_principle" else "problem_solution"
  let key_messages := extractKeyMessages content
  let slide_recommendations := generateSlideRecommendations content audience
  { content_structure :=
      { narrative_flow := narrative_flow, information_hierarchy := "primary",
        cognitive_load_score := cognitive_load_score, messaging_framework := "mckinsey_scce" },
    key_messages := key_messages,
    audience_adaptation := audience,
    slide_recommendations := slide_recommendations,
    content_density :=
      if 7 < cognitive_load_score then "high"
      else if 4 < cognitive_load_score then "medium" else "low" }

end ContentIntelligenceEngine

/-! ## Layer 2: Layout Optimization (`LayoutOptimizationEngine`) -/

structure LayoutPattern where
  name : String
  grid_system : String
  visual_hierarchy : String
  layout_type : String
  responsive_breakpoints : List String
  best_for : List String
deriving DecidableEq, Repr

structure LayoutRecommendation where
  pattern : LayoutPattern
  confidence_score : ℚ
  accessibility_score : ℚ
  reason : String
  css_framework : String
deriving DecidableEq, Repr

namespace LayoutOptimizationEngine

/-- The static layout catalog. -/
def layouts : List LayoutPattern :=
  [{ name := "hero-centered", grid_system := "flexbox", visual_hierarchy := "center-focused",
     layout_type := "hero", responsive_breakpoints := ["mobile", "tablet", "desktop"],
     best_for := ["opening slides", "title slides", "key messages", "announcements"] },
   { name := "content-split", grid_system := "12-column", visual_hierarchy := "Z-pattern",
     layout_type := "split", responsive_breakpoints := ["tablet", "desktop"],
     best_for := ["comparisons", "before/after", "problem/solution", "feature descriptions"] },
   { name := "information-grid", grid_system := "css-grid", visual_hierarchy := "F-pattern",
     layout_type := "grid", responsive_breakpoints := ["mobile", "tablet", "desktop"],
     best_for := ["data presentation", "multiple points", "dashboard views", "feature grids"] },
   { name := "process-timeline", grid_system := "flexbox", visual_hierarchy := "left-aligned",
     layout_type := "timeline", responsive_breakpoints := ["tablet", "desktop"],
     best_for := ["step-by-step processes", "roadmaps", "chronological data", "workflows"] },
   { name := "comparison-table", grid_system := "12-column", visual_hierarchy := "F-pattern",
     layout_type := "comparison", responsive_breakpoints := ["tablet", "desktop"],
     best_for := ["feature comparisons", "competitive analysis", "pros/cons", "options evaluation"] },
   { name := "process-flow", grid_system := "flexbox", visual_hierarchy := "Z-pattern",
     layout_type := "process_flow", responsive_breakpoints := ["tablet", "desktop"],
     best_for := ["workflows", "user journeys", "system processes", "methodology explanations"] }]

instance : Inhabited LayoutPattern := ⟨"", "", "", "", [], []⟩

/-- The source's `this.layouts.find(l => l.name === name)!`: the non-null
assertion is sound because every looked-up name is in the catalog. -/
def findLayout (name : String) : LayoutPattern :=
  ((layouts.find? (fun l => l.name == name)).getD default)

/-- `LayoutOptimizationEngine.calculateAccessibilityScore`. -/
def calculateAccessibilityScore (layout : LayoutPattern) (audience : String) : ℚ :=
  let score : ℚ := 8/10
  let score := if layout.responsive_breakpoints.contains "mobile" then score + 1/10 else score
  let score :=
    if layout.visual_hierarchy == "F-pattern" || layout.visual_hierarchy == "Z-pattern" then
      score + 1/10
    else score
  let score :=
    if audience == "executive" && layout.layout_type == "hero" then score + 5/100 else score
  min 1 score

/-- `LayoutOptimizationEngine.generateCSSFramework` (dispatch on grid system). -/
def generateCSSFramework (layout : LayoutPattern) : String :=
  if layout.grid_system == "12-column" then
    "\n        .slide-container \x7b\n          display: grid;\n          grid-template-columns: repeat(12, 1fr);\n          gap: 1rem;\n          padding: 2rem;\n        \x7d"
  else if layout.grid_system == "flexbox" then
    "\n        .slide-container \x7b\n          display: flex;\n          flex-direction: column;\n          align-items: center;\n          justify-content: center;\n          padding: 2rem;\n          min-height: 100vh;\n        \x7d"
  else if layout.grid_system == "css-grid" then
    "\n        .slide-container \x7b\n          display: grid;\n          grid-template-areas: \n            \"header header header\"\n            \"content content sidebar\"\n            \"footer footer footer\";\n          gap: 1.5rem;\n          padding: 2rem;\n        \x7d"
  else
    "\n        .slide-container \x7b\n          display: flex;\n          flex-direction: column;\n          padding: 2rem;\n        \x7d"

/-- `LayoutOptimizationEngine.recommendLayout`: the ordered rule table selecting
a layout pattern, confidence and reason, then attaching the accessibility score
and CSS framework. -/
def recommendLayout (slideType : String) (contentDensity : String) (audience : String)
    (hasVisuals : Bool) : LayoutRecommendation :=
  let sel : LayoutPattern × ℚ × String :=
    if slideType == "hero" then
      (findLayout "hero-centered", 95/100,
       "Hero layout optimal for opening slides and key messages")
    else if slideType == "problem" || slideType == "solution" then
      if hasVisuals then
        (findLayout "content-split", 9/10,
         "Split layout ideal for problem/solution with supporting visuals")
      else
        (findLayout "hero-centered", 8/10,
         "Centered layout for text-heavy problem/solution slides")
    else if slideType == "evidence" then
      if contentDensity == "high" then
        (findLayout "information-grid", 85/100,
         "Grid layout handles high-density evidence effectively")
      else
        (findLayout "content-split", 8/10,
         "Split layout for evidence with supporting visuals")
    else if slideType == "comparison" then
      (findLayout "comparison-table", 9/10,
       "Comparison layout optimized for side-by-side analysis")
    else if slideType == "process" || slideType == "workflow" then
      (findLayout "process-flow", 88/100,
       "Process flow layout ideal for step-by-step content")
    else
      if contentDensity == "high" then
        (findLayout "information-grid", 7/10, "Grid layout for high-density content")
      else
        (findLayout "content-split", 75/100, "Split layout as versatile default")
  { pattern := sel.1,
    confidence_score := sel.2.1,
    accessibility_score := calculateAccessibilityScore sel.1 audience,
    reason := sel.2.2,
    css_framework := generateCSSFramework sel.1 }

end LayoutOptimizationEngine

/-! ## Layer 3: Asset Intelligence (`AssetIntelligenceEngine`)

JS `Array.prototype.includes` compares by object identity.  In `curateAssets`
the scored candidates are pairwise-distinct freshly built objects, and both the
selected and the fallback lists hold references into that scored list, so
object identity is modelled by tagging each scored candidate with its position
(`List.enum`). -/

structure AssetMetadata where
  id : String
  type : String
  source : String
  url : String
  thumbnail_url : Option String
  alt_text : String
  tags : List String
  semantic_score : ℚ
  brand_compliance : Bool
  cultural_appropriateness : Bool
  license : String
  dimensions : Option (Nat × Nat)
deriving DecidableEq, Repr

structure AssetRecommendation where
  assets : List AssetMetadata
  reasoning : String
  confidence_score : ℚ
  fallback_options : List AssetMetadata
deriving DecidableEq, Repr

structure AssetQuery where
  content_context : String
  slide_type : String
  target_audience : String
  brand_guidelines : Option String
  cultural_context : Option String
  preferred_style : Option String
deriving DecidableEq, Repr

/-- Stable insertion step for descending sort: the new element passes every
element with a strictly greater key and lands before the first element whose
key is less than or equal.  Folded right-to-left this reproduces the output of
JS's stable `Array.prototype.sort` with comparator `(a, b) => key(b) - key(a)`. -/
def insertDescBy (key : α → ℚ) (a : α) : List α → List α
  | [] => [a]
  | b :: l => if key a < key b then b :: insertDescBy key a l else a :: b :: l

/-- Stable descending sort by a rational key (see `insertDescBy`). -/
def sortDescBy (key : α → ℚ) (l : List α) : List α := l.foldr (insertDescBy key) []

namespace AssetIntelligenceEngine

/-- The stop-word list of `extractSearchTerms`. -/
def commonWords : List String :=
  ["the", "and", "or", "but", "in", "on", "at", "to", "for", "of", "with", "by"]

/-- The business vocabulary of `extractSearchTerms`. -/
def businessVocabulary : List String :=
  ["business", "strategy", "growth", "innovation", "technology", "solution", "service"]

/-- `AssetIntelligenceEngine.extractSearchTerms`. -/
def extractSearchTerms (content : String) : List String :=
  let cleaned := String.mk ((jsToLower content).toList.filter
    (fun c => c.isAlphanum || c == '_' || c.isWhitespace))
  let words := (jsSplitRuns Char.isWhitespace cleaned).filter
    (fun word => 3 < word.length && !(commonWords.contains word))
  let businessTerms := words.filter (fun word => businessVocabulary.contains word)
  let uniqueTerms := jsDedup (businessTerms ++ words.take 5)
  uniqueTerms.take 10

/-- The style-filter hints resolved by `getStyleFilter`. -/
structure StyleFilter where
  color : Option String
  orientation : Option String
  keywords : List String
deriving DecidableEq, Repr

/-- `AssetIntelligenceEngine.getStyleFilter` (unknown styles fall back to
professional). -/
def getStyleFilter (style : String) : StyleFilter :=
  if style == "professional" then
    ⟨some "blue", some "landscape", ["business", "corporate", "professional", "clean", "minimal"]⟩
  else if style == "casual" then
    ⟨none, none, ["friendly", "approachable", "modern", "colorful"]⟩
  else if style == "technical" then
    ⟨some "black_and_white", some "landscape",
     ["technical", "engineering", "data", "diagram", "schematic"]⟩
  else if style == "creative" then
    ⟨none, none, ["creative", "artistic", "innovative", "unique", "bold"]⟩
  else
    ⟨some "blue", some "landscape", ["business", "corporate", "professional", "clean", "minimal"]⟩

/-- `AssetIntelligenceEngine.searchUnsplash` (the mock integration in the
source; its try-block cannot throw). -/
def searchUnsplash (terms : List String) (styleFilter : StyleFilter) : List AssetMetadata :=
  let searchQuery := String.intercalate " " terms
  [{ id := "unsplash_1", type := "image", source := "unsplash",
     url := "https://images.unsplash.com/example", thumbnail_url := none,
     alt_text := "Professional " ++ searchQuery ++ " image", tags := terms,
     semantic_score := 8/10, brand_compliance := true, cultural_appropriateness := true,
     license := "free", dimensions := some (1920, 1080) }]

/-- `AssetIntelligenceEngine.searchIconify` (mock integration). -/
def searchIconify (terms : List String) : List AssetMetadata :=
  (terms.take 3).enum.map (fun p =>
    { id := "iconify_" ++ toString p.1, type := "icon", source := "iconify",
      url := "https://api.iconify.design/mdi/" ++ p.2 ++ ".svg", thumbnail_url := none,
      alt_text := p.2 ++ " icon", tags := [p.2],
      semantic_score := 9/10, brand_compliance := true, cultural_appropriateness := true,
      license := "free", dimensions := some (24, 24) })

/-- `AssetIntelligenceEngine.searchFreepik` (mock integration; `terms[0]` on an
empty list stringifies to `undefined` in the JS template literal). -/
def searchFreepik (terms : List String) (styleFilter : StyleFilter) : List AssetMetadata :=
  [{ id := "freepik_1", type := "image", source := "freepik",
     url := "https://freepik.com/example", thumbnail_url := none,
     alt_text := "Premium " ++ terms.headD "undefined" ++ " illustration", tags := terms,
     semantic_score := 85/100, brand_compliance := true, cultural_appropriateness := true,
     license := "premium", dimensions := some (1920, 1080) }]

/-- The per-asset body of `AssetIntelligenceEngine.scoreAssets`: semantic score
plus slide-type/audience bonuses, premium penalty, and `Math.min(1.0, score)`. -/
def scoreAsset (query : AssetQuery) (asset : AssetMetadata) : AssetMetadata :=
  let score := asset.semantic_score
  let score :=
    if query.slide_type == "hero" && asset.type == "image" then score + 1/10
    else if query.slide_type == "process" && asset.type == "icon" then score + 15/100
    else score
  let score :=
    if query.target_audience == "executive" && asset.tags.contains "professional" then
      score + 1/10
    else score
  let score :=
    if asset.license == "premium" && !(jsIncludes query.content_context "premium") then
      score - 5/100
    else score
  { asset with semantic_score := min 1 score }

/-- `AssetIntelligenceEngine.scoreAssets`. -/
def scoreAssets (assets : List AssetMetadata) (query : AssetQuery) : List AssetMetadata :=
  assets.map (scoreAsset query)

/-- The scored candidate list, position-tagged to model object identity. -/
def scoredCandidates (allAssets : List AssetMetadata) (query : AssetQuery) :
    List (Nat × AssetMetadata) :=
  (scoreAssets allAssets query).enum

/-- The brand/culture-compliant scored candidates (`compliantAssets`). -/
def compliantCandidates (allAssets : List AssetMetadata) (query : AssetQuery) :
    List (Nat × AssetMetadata) :=
  (scoredCandidates allAssets query).filter
    (fun p => p.2.brand_compliance && p.2.cultural_appropriateness)

/-- The selected candidates (`recommendedAssets`): compliant candidates sorted
descending by semantic score, top 5. -/
def selectedCandidates (allAssets : List AssetMetadata) (query : AssetQuery) :
    List (Nat × AssetMetadata) :=
  (sortDescBy (fun p => p.2.semantic_score) (compliantCandidates allAssets query)).take 5

/-- The fallback candidates (`fallbackAssets`): the scored candidates (in their
original order) that were not selected, first 3. -/
def fallbackCandidates (allAssets : List AssetMetadata) (query : AssetQuery) :
    List (Nat × AssetMetadata) :=
  ((scoredCandidates allAssets query).filter
    (fun p => !((selectedCandidates allAssets query).contains p))).take 3

/-- `AssetIntelligenceEngine.generateReasoning`. -/
def generateReasoning (assets : List AssetMetadata) (query : AssetQuery) : String :=
  let assetTypes := jsDedup (assets.map AssetMetadata.type)
  let sources := jsDedup (assets.map AssetMetadata.source)
  "Selected " ++ toString assets.length ++ " assets (" ++ String.intercalate ", " assetTypes ++
    ") from " ++ String.intercalate ", " sources ++ " optimized for " ++ query.slide_type ++
    " slide targeting " ++ query.target_audience ++ " audience. " ++
    "Assets chosen for high semantic relevance and brand compliance."

/-- `AssetIntelligenceEngine.calculateConfidenceScore`. -/
def calculateConfidenceScore (assets : List AssetMetadata) : ℚ :=
  if assets.length == 0 then 0
  else
    let avgSemanticScore := (assets.map AssetMetadata.semantic_score).sum / (assets.length : ℚ)
    let brandComplianceRate :=
      ((assets.filter AssetMetadata.brand_compliance).length : ℚ) / (assets.length : ℚ)
    avgSemanticScore * (7/10) + brandComplianceRate * (3/10)

/-- The combine-score-filter-sort-select core of
`AssetIntelligenceEngine.curateAssets`, starting from the concatenated source
results (`allAssets`). -/
def curateAssetsCore (allAssets : List AssetMetadata) (query : AssetQuery) :
    AssetRecommendation :=
  let recommendedAssets := (selectedCandidates allAssets query).map Prod.snd
  let fallbackAssets := (fallbackCandidates allAssets query).map Prod.snd
  { assets := recommendedAssets,
    reasoning := generateReasoning recommendedAssets query,
    confidence_score := calculateConfidenceScore recommendedAssets,
    fallback_options := fallbackAssets }

/-- `AssetIntelligenceEngine.curateAssets`. -/
def curateAssets (query : AssetQuery) : AssetRecommendation :=
  let searchTerms := extractSearchTerms query.content_context
  let styleFilter := getStyleFilter (query.preferred_style.getD "professional")
  let unsplashAssets := searchUnsplash searchTerms styleFilter
  let iconifyAssets := searchIconify searchTerms
  let freepikAssets := searchFreepik searchTerms styleFilter
  curateAssetsCore (unsplashAssets ++ iconifyAssets ++ freepikAssets) query

/-- `AssetIntelligenceEngine.checkCulturalAppropriateness`.  The `context`
parameter is, as in the source, accepted but unused. -/
def checkCulturalAppropriateness (asset : AssetMetadata) (context : String) : Bool :=
  let sensitiveTerms := ["religious", "political", "controversial"]
  let assetContent :=
    jsToLower asset.alt_text ++ " " ++ jsToLower (String.intercalate " " asset.tags)
  !(sensitiveTerms.any (fun term => jsIncludes assetContent term))

/-- Modelled from the spec: the real asset-source integrations are external
MCP calls that may throw ("This would integrate with the Unsplash MCP"); the
source wraps each search body in try/catch that logs the error and returns
`[]`.  The fallible fetch outcome is passed explicitly. -/
def searchSourceCaught (fetch : Except String (List AssetMetadata)) : List AssetMetadata :=
  match fetch with
  | .ok assets => assets
  | .error _ => []

/-- `curateAssets` with the three fallible source fetches made explicit; the
`Except` result records whether any exception escapes. -/
def curateAssetsFromSources
    (unsplashFetch iconifyFetch freepikFetch : Except String (List AssetMetadata))
    (query : AssetQuery) : Except String AssetRecommendation :=
  .ok (curateAssetsCore
    (searchSourceCaught unsplashFetch ++ searchSourceCaught iconifyFetch ++
      searchSourceCaught freepikFetch) query)

end AssetIntelligenceEngine

/-! ## Layer 4: Style Orchestration (`StyleOrchestrationEngine`)

JS `Record<string, string>` objects are iterated with `Object.entries`, which
follows insertion order; they are modelled as insertion-ordered association
lists. -/

structure DesignToken where
  name : String
  value : String
  category : String
  scope : String
deriving DecidableEq, Repr

structure ComponentStyle where
  component : String
  styles : List (String × String)
  variants : Option (List (String × List (String × String)))
  responsive : Option (List (String × List (String × String)))
deriving DecidableEq, Repr

structure StyleTheme where
  name : String
  tokens : List DesignToken
  components : List ComponentStyle
  brand_alignment : ℚ
  accessibility_score : ℚ
deriving DecidableEq, Repr

structure StyleRecommendation where
  theme : StyleTheme
  custom_tokens : List DesignToken
  component_overrides : List ComponentStyle
  css_framework : String
  reasoning : String
deriving DecidableEq, Repr

namespace StyleOrchestrationEngine

/-- `StyleOrchestrationEngine.hatchBrandTokens`. -/
def hatchBrandTokens : List DesignToken :=
  [⟨"--hatch-primary-blue", "#095078", "color", "global"⟩,
   ⟨"--hatch-secondary-blue", "#ACBCC8", "color", "global"⟩,
   ⟨"--hatch-primary-orange", "#E84B37", "color", "global"⟩,
   ⟨"--hatch-secondary-orange", "#E75300", "color", "global"⟩,
   ⟨"--hatch-corporate-gray", "#425563", "color", "global"⟩,
   ⟨"--hatch-medium-gray", "#595959", "color", "global"⟩,
   ⟨"--hatch-light-gray", "#A0AEC0", "color", "global"⟩,
   ⟨"--hatch-background", "#f4f4f4", "color", "global"⟩,
   ⟨"--hatch-white", "#FFFFFF", "color", "global"⟩,
   ⟨"--font-primary", "Inter, system-ui, sans-serif", "typography", "global"⟩,
   ⟨"--font-weight-normal", "400", "typography", "global"⟩,
   ⟨"--font-weight-medium", "500", "typography", "global"⟩,
   ⟨"--font-weight-bold", "700", "typography", "global"⟩,
   ⟨"--font-size-xs", "0.75rem", "typography", "global"⟩,
   ⟨"--font-size-sm", "0.875rem", "typography", "global"⟩,
   ⟨"--font-size-base", "1rem", "typography", "global"⟩,
   ⟨"--font-size-lg", "1.125rem", "typography", "global"⟩,
   ⟨"--font-size-xl", "1.25rem", "typography", "global"⟩,
   ⟨"--font-size-2xl", "1.5rem", "typography", "global"⟩,
   ⟨"--font-size-3xl", "1.875rem", "typography", "global"⟩,
   ⟨"--font-size-4xl", "2.25rem", "typography", "global"⟩,
   ⟨"--spacing-1", "0.25rem", "spacing", "global"⟩,
   ⟨"--spacing-2", "0.5rem", "spacing", "global"⟩,
   ⟨"--spacing-3", "0.75rem", "spacing", "global"⟩,
   ⟨"--spacing-4", "1rem", "spacing", "global"⟩,
   ⟨"--spacing-6", "1.5rem", "spacing", "global"⟩,
   ⟨"--spacing-8", "2rem", "spacing", "global"⟩,
   ⟨"--spacing-12", "3rem", "spacing", "global"⟩,
   ⟨"--spacing-16", "4rem", "spacing", "global"⟩,
   ⟨"--shadow-sm", "0 1px 2px 0 rgba(0, 0, 0, 0.05)", "shadow", "global"⟩,
   ⟨"--shadow-md", "0 4px 6px -1px rgba(0, 0, 0, 0.1)", "shadow", "global"⟩,
   ⟨"--shadow-lg", "0 10px 15px -3px rgba(0, 0, 0, 0.1)", "shadow", "global"⟩,
   ⟨"--border-radius-sm", "0.125rem", "border", "global"⟩,
   ⟨"--border-radius-md", "0.375rem", "border", "global"⟩,
   ⟨"--border-radius-lg", "0.5rem", "border", "global"⟩,
   ⟨"--border-radius-xl", "0.75rem", "border", "global"⟩]

/-- `StyleOrchestrationEngine.createHatchCorporateTheme`. -/
def createHatchCorporateTheme : StyleTheme :=
  { name := "hatch-corporate",
    tokens := hatchBrandTokens,
    components :=
      [{ component := "slide-header",
         styles :=
           [("background",
             "linear-gradient(135deg, var(--hatch-primary-blue) 0%, var(--hatch-secondary-blue) 100%)"),
            ("color", "var(--hatch-white)"),
            ("padding", "var(--spacing-8) var(--spacing-12)"),
            ("border-radius", "var(--border-radius-lg)"),
            ("margin-bottom", "var(--spacing-6)")],
         variants := some
           [("hero",
             [("font-size", "var(--font-size-4xl)"), ("text-align", "center"),
              ("padding", "var(--spacing-12) var(--spacing-16)")]),
            ("content",
             [("font-size", "var(--font-size-2xl)"), ("text-align", "left")])],
         responsive := none },
       { component := "slide-content",
         styles :=
           [("color", "var(--hatch-corporate-gray)"),
            ("font-family", "var(--font-primary)"),
            ("line-height", "1.6"),
            ("padding", "var(--spacing-6)")],
         variants := some
           [("high-density",
             [("font-size", "var(--font-size-sm)"), ("line-height", "1.4")]),
            ("low-density",
             [("font-size", "var(--font-size-lg)"), ("line-height", "1.8")])],
         responsive := none },
       { component := "call-to-action",
         styles :=
           [("background",
             "linear-gradient(135deg, var(--hatch-primary-orange) 0%, var(--hatch-secondary-orange) 100%)"),
            ("color", "var(--hatch-white)"),
            ("padding", "var(--spacing-4) var(--spacing-8)"),
            ("border-radius", "var(--border-radius-md)"),
            ("font-weight", "var(--font-weight-bold)"),
            ("text-align", "center"),
            ("box-shadow", "var(--shadow-md)")],
         variants := none,
         responsive := none },
       { component := "data-table",
         styles :=
           [("border", "2px solid var(--hatch-primary-orange)"),
            ("border-radius", "var(--border-radius-lg)"),
            ("overflow", "hidden")],
         variants := some
           [("header",
             [("background", "var(--hatch-primary-orange)"), ("color", "var(--hatch-white)"),
              ("font-weight", "var(--font-weight-bold)")]),
            ("cell",
             [("padding", "var(--spacing-3)"),
              ("border-bottom", "1px solid var(--hatch-light-gray)")])],
         responsive := none }],
    brand_alignment := 1,
    accessibility_score := 95/100 }

/-- `StyleOrchestrationEngine.generateCustomTokens`. -/
def generateCustomTokens (slideType audience contentDensity : String) : List DesignToken :=
  let tokens : List DesignToken := []
  let tokens := tokens ++
    (if audience == "executive" then
      [⟨"--executive-emphasis", "var(--hatch-primary-blue)", "color", "component"⟩,
       ⟨"--executive-font-size", "var(--font-size-xl)", "typography", "component"⟩]
    else if audience == "technical" then
      [⟨"--technical-accent", "var(--hatch-medium-gray)", "color", "component"⟩,
       ⟨"--code-font", "Monaco, Consolas, monospace", "typography", "component"⟩]
    else [])
  let tokens := tokens ++
    (if contentDensity == "high" then
      [⟨"--dense-spacing", "var(--spacing-2)", "spacing", "component"⟩,
       ⟨"--dense-font-size", "var(--font-size-sm)", "typography", "component"⟩]
    else if contentDensity == "low" then
      [⟨"--spacious-spacing", "var(--spacing-8)", "spacing", "component"⟩,
       ⟨"--spacious-font-size", "var(--font-size-lg)", "typography", "component"⟩]
    else [])
  let tokens := tokens ++
    (if slideType == "hero" then
      [⟨"--hero-gradient",
        "linear-gradient(135deg, var(--hatch-primary-blue) 0%, var(--hatch-secondary-blue) 100%)",
        "color", "component"⟩]
    else if slideType == "evidence" then
      [⟨"--evidence-highlight", "var(--hatch-primary-orange)", "color", "component"⟩]
    else [])
  tokens

/-- `StyleOrchestrationEngine.generateComponentOverrides`. -/
def generateComponentOverrides (slideType contentDensity : String) : List ComponentStyle :=
  let overrides : List ComponentStyle := []
  let overrides := overrides ++
    (if slideType == "comparison" then
      [{ component := "comparison-grid",
         styles :=
           [("display", "grid"), ("grid-template-columns", "1fr 1fr"),
            ("gap", "var(--spacing-6)"), ("padding", "var(--spacing-4)")],
         variants := none, responsive := none }]
    else [])
  let overrides := overrides ++
    (if slideType == "timeline" then
      [{ component := "timeline-container",
         styles :=
           [("display", "flex"), ("flex-direction", "row"),
            ("align-items", "center"), ("gap", "var(--spacing-4)")],
         variants := none,
         responsive := some [("mobile", [("flex-direction", "column")])] }]
    else [])
  let overrides := overrides ++
    (if contentDensity == "high" then
      [{ component := "content-container",
         styles :=
           [("font-size", "var(--dense-font-size)"), ("line-height", "1.4"),
            ("padding", "var(--dense-spacing)")],
         variants := none, responsive := none }]
    else [])
  overrides

/-- `StyleOrchestrationEngine.generateComponentCSS`. -/
def generateComponentCSS (component : ComponentStyle) : String :=
  let css := "." ++ component.component ++ " \x7b\n"
  let css := css ++
    String.join (component.styles.map (fun pv => "  " ++ pv.1 ++ ": " ++ pv.2 ++ ";\n"))
  let css := css ++ "\x7d\n"
  let css := css ++
    (match component.variants with
     | none => ""
     | some variants =>
       String.join (variants.map (fun vs =>
         "." ++ component.component ++ "--" ++ vs.1 ++ " \x7b\n" ++
           String.join (vs.2.map (fun pv => "  " ++ pv.1 ++ ": " ++ pv.2 ++ ";\n")) ++
           "\x7d\n")))
  let css := css ++
    (match component.responsive with
     | none => ""
     | some responsive =>
       String.join (responsive.map (fun bs =>
         let mediaQuery := if bs.1 == "mobile" then "max-width: 768px" else "min-width: 769px"
         "@media (" ++ mediaQuery ++ ") \x7b\n" ++ "  ." ++ component.component ++ " \x7b\n" ++
           String.join (bs.2.map (fun pv => "    " ++ pv.1 ++ ": " ++ pv.2 ++ ";\n")) ++
           "  \x7d\n\x7d\n")))
  css

/-- `StyleOrchestrationEngine.generateCSSFramework`: tokens as CSS custom
properties, then component rules, then fixed utility classes. -/
def generateCSSFramework (theme : StyleTheme) (customTokens : List DesignToken) : String :=
  let allTokens := theme.tokens ++ customTokens
  let cssVariables := String.intercalate "\n"
    (allTokens.map (fun token => "  " ++ token.name ++ ": " ++ token.value ++ ";"))
  let componentStyles := String.intercalate "\n\n"
    (theme.components.map generateComponentCSS)
  "\n/* Hatch Corporate Design System */\n:root \x7b\n" ++ cssVariables ++ "\n\x7d\n\n" ++
    "/* Base styles */\n.slidev-container \x7b\n  font-family: var(--font-primary);\n" ++
    "  color: var(--hatch-corporate-gray);\n  background: var(--hatch-background);\n" ++
    "  line-height: 1.6;\n\x7d\n\n.slide \x7b\n  padding: var(--spacing-8);\n" ++
    "  min-height: 100vh;\n  display: flex;\n  flex-direction: column;\n\x7d\n\n" ++
    "/* Component styles */\n" ++ componentStyles ++ "\n\n/* Utility classes */\n" ++
    ".text-center \x7b text-align: center; \x7d\n.text-left \x7b text-align: left; \x7d\n" ++
    ".text-right \x7b text-align: right; \x7d\n\n" ++
    ".font-bold \x7b font-weight: var(--font-weight-bold); \x7d\n" ++
    ".font-medium \x7b font-weight: var(--font-weight-medium); \x7d\n\n" ++
    ".text-primary \x7b color: var(--hatch-primary-blue); \x7d\n" ++
    ".text-accent \x7b color: var(--hatch-primary-orange); \x7d\n" ++
    ".text-muted \x7b color: var(--hatch-medium-gray); \x7d\n\n" ++
    ".bg-primary \x7b background: var(--hatch-primary-blue); \x7d\n" ++
    ".bg-accent \x7b background: var(--hatch-primary-orange); \x7d\n" ++
    ".bg-light \x7b background: var(--hatch-light-gray); \x7d\n\n" ++
    ".shadow-sm \x7b box-shadow: var(--shadow-sm); \x7d\n" ++
    ".shadow-md \x7b box-shadow: var(--shadow-md); \x7d\n" ++
    ".shadow-lg \x7b box-shadow: var(--shadow-lg); \x7d\n\n" ++
    ".rounded-sm \x7b border-radius: var(--border-radius-sm); \x7d\n" ++
    ".rounded-md \x7b border-radius: var(--border-radius-md); \x7d\n" ++
    ".rounded-lg \x7b border-radius: var(--border-radius-lg); \x7d\n\n" ++
    "/* Responsive utilities */\n@media (max-width: 768px) \x7b\n  .slide \x7b\n" ++
    "    padding: var(--spacing-4);\n  \x7d\n  \n  .desktop-only \x7b\n" ++
    "    display: none;\n  \x7d\n\x7d\n\n@media (min-width: 769px) \x7b\n" ++
    "  .mobile-only \x7b\n    display: none;\n  \x7d\n\x7d\n"

/-- `StyleOrchestrationEngine.generateStyleReasoning`. -/
def generateStyleReasoning (slideType audience contentDensity : String) : String :=
  "Style optimized for " ++ slideType ++ " slide targeting " ++ audience ++ " audience with " ++
    contentDensity ++ " content density. " ++
    "Applied Hatch corporate branding with accessibility-compliant color contrasts and " ++
    "responsive design patterns. " ++
    "Used atomic design principles with modular component system for consistency and " ++
    "maintainability."

/-- `StyleOrchestrationEngine.generateStyleRecommendation`.  The
`brandGuidelines` parameter is, as in the source, accepted but unused. -/
def generateStyleRecommendation (slideType audience contentDensity : String)
    (brandGuidelines : Option String) : StyleRecommendation :=
  let baseTheme := createHatchCorporateTheme
  let customTokens := generateCustomTokens slideType audience contentDensity
  let componentOverrides := generateComponentOverrides slideType contentDensity
  let cssFramework := generateCSSFramework baseTheme customTokens
  { theme := baseTheme,
    custom_tokens := customTokens,
    component_overrides := componentOverrides,
    css_framework := cssFramework,
    reasoning := generateStyleReasoning slideType audience contentDensity }

end StyleOrchestrationEngine

/-! ## Orchestrator (`SlidevBuilderOrchestrator`) -/

structure SlideGenerationRequest where
  content : String
  audience : String
  presentation_type : String
  brand_guidelines : Option String
  time_constraint : Option Nat
  accessibility_requirements : Option (List String)
deriving DecidableEq, Repr

structure GeneratedSlide where
  id : String
  type : String
  title : String
  content : String
  layout : LayoutRecommendation
  assets : AssetRecommendation
  style : StyleRecommendation
  markdown : String
  estimated_time : Nat
deriving DecidableEq, Repr

structure PresentationMetadata where
  total_slides : Nat
  estimated_duration : Nat
  complexity_score : Nat
  accessibility_score : ℚ
  brand_compliance : ℚ
deriving DecidableEq, Repr

structure QualityMetrics where
  content_quality : ℚ
  visual_appeal : ℚ
  accessibility : ℚ
  brand_alignment : ℚ
  overall_score : ℚ
deriving DecidableEq, Repr

structure SlideGenerationResult where
  slides : List GeneratedSlide
  presentation_metadata : PresentationMetadata
  quality_metrics : QualityMetrics
  optimization_suggestions : List String
deriving DecidableEq, Repr

namespace SlidevBuilderOrchestrator

/-- The fixed title lookup table of `generateSlideTitle`. -/
def slideTitles : List (String × String) :=
  [("hero", "Market Leadership Response"), ("problem", "Current Market Challenges"),
   ("solution", "Our Strategic Solution"), ("evidence", "Proven Results & Impact"),
   ("action", "Next Steps Forward")]

/-- `SlidevBuilderOrchestrator.generateSlideTitle`.  The `contentPoints`
parameter is, as in the source, accepted but unused. -/
def generateSlideTitle (slideType : String) (contentPoints : List String) : String :=
  ((slideTitles.find? (fun p => p.1 == slideType)).map Prod.snd).getD "Key Information"

/-- `SlidevBuilderOrchestrator.generateHeroSlide`. -/
def generateHeroSlide (recommendation : SlideRecommendation) (asset : Option AssetMetadata) :
    String :=
  "\n<div class=\"slide-header slide-header--hero\">\n  <h1>" ++
    generateSlideTitle "hero" recommendation.content_points ++
    "</h1>\n  <p class=\"subtitle\">AI-Native Strategic Advisory Capability</p>\n</div>\n\n" ++
    "<div class=\"hero-content\">\n  " ++
    (match asset with
     | some a => "<img src=\"" ++ a.url ++ "\" alt=\"" ++ a.alt_text ++
         "\" class=\"hero-image\" />"
     | none => "") ++
    "\n  \n  <div class=\"hero-highlights\">\n    " ++
    String.intercalate "\n    " (recommendation.content_points.map
      (fun point => "<div class=\"highlight-item\">✨ " ++ point ++ "</div>")) ++
    "\n  </div>\n</div>\n\n<div class=\"call-to-action\">\n" ++
    "  <p>Transforming Advisory Excellence Through Human-AI Collaboration</p>\n</div>\n"

/-- `SlidevBuilderOrchestrator.generateProblemSlide`. -/
def generateProblemSlide (recommendation : SlideRecommendation) (asset : Option AssetMetadata) :
    String :=
  "\n<div class=\"slide-header slide-header--content\">\n  <h1>🚨 " ++
    generateSlideTitle "problem" recommendation.content_points ++
    "</h1>\n</div>\n\n<div class=\"content-split\">\n  <div class=\"problem-statement\">\n" ++
    "    <h2>Current Challenges</h2>\n    <ul>\n      " ++
    String.intercalate "\n      " (recommendation.content_points.map
      (fun point => "<li>" ++ point ++ "</li>")) ++
    "\n    </ul>\n  </div>\n  \n  <div class=\"problem-visual\">\n    " ++
    (match asset with
     | some a => "<img src=\"" ++ a.url ++ "\" alt=\"" ++ a.alt_text ++ "\" />"
     | none => "") ++
    "\n  </div>\n</div>\n"

/-- `SlidevBuilderOrchestrator.generateSolutionSlide`. -/
def generateSolutionSlide (recommendation : SlideRecommendation) (asset : Option AssetMetadata) :
    String :=
  "\n<div class=\"slide-header slide-header--content\">\n  <h1>💡 " ++
    generateSlideTitle "solution" recommendation.content_points ++
    "</h1>\n</div>\n\n<div class=\"solution-grid\">\n  " ++
    String.join (recommendation.content_points.enum.map (fun p =>
      "\n  <div class=\"solution-item\">\n    <div class=\"solution-icon\">🔧</div>\n" ++
        "    <h3>Solution " ++ toString (p.1 + 1) ++ "</h3>\n    <p>" ++ p.2 ++
        "</p>\n  </div>\n  ")) ++
    "\n</div>\n\n" ++
    (match asset with
     | some a => "\n<div class=\"solution-visual\">\n  <img src=\"" ++ a.url ++ "\" alt=\"" ++
         a.alt_text ++ "\" />\n</div>\n"
     | none => "") ++
    "\n"

/-- `SlidevBuilderOrchestrator.generateEvidenceSlide`. -/
def generateEvidenceSlide (recommendation : SlideRecommendation) (assets : AssetRecommendation) :
    String :=
  "\n<div class=\"slide-header slide-header--content\">\n  <h1>📊 " ++
    generateSlideTitle "evidence" recommendation.content_points ++
    "</h1>\n</div>\n\n<div class=\"evidence-container\">\n  <div class=\"data-table\">\n" ++
    "    <table>\n      <thead>\n        <tr class=\"data-table--header\">\n" ++
    "          <th>Metric</th>\n          <th>Traditional</th>\n          <th>AI-Native</th>\n" ++
    "        </tr>\n      </thead>\n      <tbody>\n        " ++
    String.join (recommendation.content_points.map (fun point =>
      "\n        <tr>\n          <td class=\"data-table--cell font-bold\">" ++ point ++
        "</td>\n          <td class=\"data-table--cell text-center\">Standard</td>\n" ++
        "          <td class=\"data-table--cell text-center text-accent font-bold\">" ++
        "Optimized</td>\n        </tr>\n        ")) ++
    "\n      </tbody>\n    </table>\n  </div>\n  \n  " ++
    (match assets.assets.head? with
     | some a => "\n  <div class=\"evidence-visual\">\n    <img src=\"" ++ a.url ++
         "\" alt=\"" ++ a.alt_text ++ "\" />\n  </div>\n  "
     | none => "") ++
    "\n</div>\n"

/-- `SlidevBuilderOrchestrator.generateActionSlide`. -/
def generateActionSlide (recommendation : SlideRecommendation) (asset : Option AssetMetadata) :
    String :=
  "\n<div class=\"slide-header slide-header--content\">\n  <h1>🚀 " ++
    generateSlideTitle "action" recommendation.content_points ++
    "</h1>\n</div>\n\n<div class=\"action-steps\">\n  " ++
    String.join (recommendation.content_points.enum.map (fun p =>
      "\n  <div class=\"action-item\">\n    <div class=\"step-number\">" ++ toString (p.1 + 1) ++
        "</div>\n    <div class=\"step-content\">\n      <h3>Next Step</h3>\n      <p>" ++ p.2 ++
        "</p>\n    </div>\n  </div>\n  ")) ++
    "\n</div>\n\n<div class=\"call-to-action\">\n" ++
    "  <h2>Ready to Transform Your Advisory Practice?</h2>\n" ++
    "  <p>Contact us to discuss your HAIA+ implementation</p>\n</div>\n"

/-- `SlidevBuilderOrchestrator.generateDefaultSlide`. -/
def generateDefaultSlide (recommendation : SlideRecommendation) (asset : Option AssetMetadata) :
    String :=
  "\n<div class=\"slide-header slide-header--content\">\n  <h1>" ++
    generateSlideTitle "default" recommendation.content_points ++
    "</h1>\n</div>\n\n<div class=\"slide-content\">\n  <ul>\n    " ++
    String.intercalate "\n    " (recommendation.content_points.map
      (fun point => "<li>" ++ point ++ "</li>")) ++
    "\n  </ul>\n  \n  " ++
    (match asset with
     | some a => "\n  <div class=\"content-visual\">\n    <img src=\"" ++ a.url ++ "\" alt=\"" ++
         a.alt_text ++ "\" />\n  </div>\n  "
     | none => "") ++
    "\n</div>\n"

/-- `SlidevBuilderOrchestrator.generateSlideMarkdown`: front matter and style
block, then the slide-type-specific template. -/
def generateSlideMarkdown (recommendation : SlideRecommendation)
    (layout : LayoutRecommendation) (assets : AssetRecommendation)
    (style : StyleRecommendation) : String :=
  let layoutClass := layout.pattern.name
  let primaryAsset := assets.assets.head?
  let markdown := "---\nlayout: default\nclass: \x27" ++ layoutClass ++
    "\x27\n---\n\n<style>\n" ++ style.css_framework ++ "\n</style>\n"
  markdown ++
    (if recommendation.slide_type == "hero" then generateHeroSlide recommendation primaryAsset
     else if recommendation.slide_type == "problem" then
       generateProblemSlide recommendation primaryAsset
     else if recommendation.slide_type == "solution" then
       generateSolutionSlide recommendation primaryAsset
     else if recommendation.slide_type == "evidence" then
       generateEvidenceSlide recommendation assets
     else if recommendation.slide_type == "action" then
       generateActionSlide recommendation primaryAsset
     else generateDefaultSlide recommendation primaryAsset)

/-- The body of the per-recommendation loop of `generateSlideDeck`: layers 2-4
plus markdown rendering for one recommendation.  `idx` is the number of slides
already pushed, so the slide id is `slide_{idx+1}`. -/
def buildSlide (request : SlideGenerationRequest) (contentAnalysis : ContentAnalysisResult)
    (idx : Nat) (recommendation : SlideRecommendation) : GeneratedSlide :=
  let layoutRecommendation := LayoutOptimizationEngine.recommendLayout
    recommendation.slide_type contentAnalysis.content_density request.audience true
  let assetRecommendation := AssetIntelligenceEngine.curateAssets
    { content_context := request.content, slide_type := recommendation.slide_type,
      target_audience := request.audience, brand_guidelines := request.brand_guidelines,
      cultural_context := none, preferred_style := some "professional" }
  let styleRecommendation := StyleOrchestrationEngine.generateStyleRecommendation
    recommendation.slide_type request.audience contentAnalysis.content_density
    request.brand_guidelines
  let slideMarkdown := generateSlideMarkdown recommendation layoutRecommendation
    assetRecommendation styleRecommendation
  { id := "slide_" ++ toString (idx + 1),
    type := recommendation.slide_type,
    title := generateSlideTitle recommendation.slide_type contentAnalysis.key_messages,
    content := String.intercalate ", " recommendation.content_points,
    layout := layoutRecommendation,
    assets := assetRecommendation,
    style := styleRecommendation,
    markdown := slideMarkdown,
    estimated_time := recommendation.estimated_time }

/-- `SlidevBuilderOrchestrator.calculatePresentationMetadata`. -/
def calculatePresentationMetadata (slides : List GeneratedSlide)
    (contentAnalysis : ContentAnalysisResult) : PresentationMetadata :=
  let totalTime := (slides.map GeneratedSlide.estimated_time).sum
  { total_slides := slides.length,
    estimated_duration := totalTime,
    complexity_score := contentAnalysis.content_structure.cognitive_load_score,
    accessibility_score :=
      (slides.map (fun slide => slide.layout.accessibility_score)).sum / (slides.length : ℚ),
    brand_compliance :=
      (slides.map (fun slide => slide.style.theme.brand_alignment)).sum / (slides.length : ℚ) }

/-- `SlidevBuilderOrchestrator.calculateQualityMetrics`. -/
def calculateQualityMetrics (slides : List GeneratedSlide) : QualityMetrics :=
  let contentQuality :=
    (slides.map (fun slide => if 50 < slide.content.length then (9:ℚ)/10 else 7/10)).sum /
      (slides.length : ℚ)
  let visualAppeal :=
    (slides.map (fun slide => if 0 < slide.assets.assets.length then (9:ℚ)/10 else 6/10)).sum /
      (slides.length : ℚ)
  let accessibility :=
    (slides.map (fun slide => slide.layout.accessibility_score)).sum / (slides.length : ℚ)
  let brandAlignment :=
    (slides.map (fun slide => slide.style.theme.brand_alignment)).sum / (slides.length : ℚ)
  let overallScore := (contentQuality + visualAppeal + accessibility + brandAlignment) / 4
  { content_quality := contentQuality,
    visual_appeal := visualAppeal,
    accessibility := accessibility,
    brand_alignment := brandAlignment,
    overall_score := overallScore }

/-- `SlidevBuilderOrchestrator.generateOptimizationSuggestions`.  A JS numeric
`time_constraint` of `0` is falsy, so the overage rule fires only for a
present, non-zero constraint. -/
def generateOptimizationSuggestions (slides : List GeneratedSlide) (metrics : QualityMetrics)
    (request : SlideGenerationRequest) : List String :=
  let suggestions : List String := []
  let suggestions := suggestions ++
    (if metrics.content_quality < 8/10 then
      ["Consider expanding content depth or adding more supporting details"]
    else [])
  let suggestions := suggestions ++
    (if metrics.visual_appeal < 8/10 then
      ["Add more visual elements like charts, diagrams, or high-quality images"]
    else [])
  let suggestions := suggestions ++
    (if metrics.accessibility < 9/10 then
      ["Improve accessibility with better color contrast and alt text"]
    else [])
  let suggestions := suggestions ++
    (if 10 < slides.length then
      ["Consider condensing content - presentations over 10 slides may lose audience attention"]
    else [])
  let totalTime := (slides.map GeneratedSlide.estimated_time).sum
  let suggestions := suggestions ++
    (match request.time_constraint with
     | some tc =>
       if !(tc == 0) && tc * 60 < totalTime then
         ["Presentation duration (" ++ toString ((totalTime + 30) / 60) ++
           "min) exceeds time constraint"]
       else []
     | none => [])
  suggestions

/-- `SlidevBuilderOrchestrator.generateSlideDeck`: the full 4-layer pipeline.
The source's `for` loop pushes one slide per recommendation with
`id = slide_{slides.length + 1}`, i.e. the 1-based position. -/
def generateSlideDeck (request : SlideGenerationRequest) : SlideGenerationResult :=
  let contentAnalysis := ContentIntelligenceEngine.analyzeContent request.content request.audience
  let slides := contentAnalysis.slide_recommendations.enum.map
    (fun p => buildSlide request contentAnalysis p.1 p.2)
  let metadata := calculatePresentationMetadata slides contentAnalysis
  let qualityMetrics := calculateQualityMetrics slides
  let optimizationSuggestions := generateOptimizationSuggestions slides qualityMetrics request
  { slides := slides,
    presentation_metadata := metadata,
    quality_metrics := qualityMetrics,
    optimization_suggestions := optimizationSuggestions }

end SlidevBuilderOrchestrator

/-! ## Concrete test fixtures -/

/-- A neutral query: no bonus or penalty conditions of `scoreAssets` fire. -/
def plainQuery : AssetQuery :=
  { content_context := "x", slide_type := "summary", target_audience := "general",
    brand_guidelines := none, cultural_context := none, preferred_style := none }

/-- A query whose content consists of the single sensitive term `political`. -/
def polQuery : AssetQuery :=
  { content_context := "political", slide_type := "summary", target_audience := "general",
    brand_guidelines := none, cultural_context := none, preferred_style := none }

/-- The candidate the Iconify mock source returns for the search term
`political`: tagged `["political"]` but carrying `cultural_appropriateness :=
true`, as the source hardcodes for every mock result. -/
def iconifyPolitical : AssetMetadata :=
  { id := "iconify_0", type := "icon", source := "iconify",
    url := "https://api.iconify.design/mdi/political.svg", thumbnail_url := none,
    alt_text := "political icon", tags := ["political"], semantic_score := 9/10,
    brand_compliance := true, cultural_appropriateness := true, license := "free",
    dimensions := some (24, 24) }

/-- A minimal compliant free-license image candidate with a given id and
semantic score. -/
def mkTestAsset (i : String) (s : ℚ) : AssetMetadata :=
  { id := i, type := "image", source := "unsplash", url := "", thumbnail_url := none,
    alt_text := "", tags := [], semantic_score := s, brand_compliance := true,
    cultural_appropriateness := true, license := "free", dimensions := none }

/-- Nine compliant candidates: the four lowest scores sit at the front of the
source order, the five highest at the back. -/
def nineAssets : List AssetMetadata :=
  [mkTestAsset "a0" 0, mkTestAsset "a1" (1/20), mkTestAsset "a2" (1/10),
   mkTestAsset "a3" (3/20), mkTestAsset "a4" (9/10), mkTestAsset "a5" (4/5),
   mkTestAsset "a6" (7/10), mkTestAsset "a7" (3/5), mkTestAsset "a8" (1/2)]

/-- A premium-license candidate whose reported semantic score is `0`. -/
def premiumZeroAsset : AssetMetadata :=
  { id := "z", type := "image", source := "freepik", url := "", thumbnail_url := none,
    alt_text := "", tags := [], semantic_score := 0, brand_compliance := true,
    cultural_appropriateness := true, license := "premium", dimensions := none }

/-- An empty style theme with unit brand alignment. -/
def trivialTheme : StyleTheme :=
  { name := "", tokens := [], components := [], brand_alignment := 1,
    accessibility_score := 0 }

/-- An empty style recommendation with unit brand alignment. -/
def trivialStyle : StyleRecommendation :=
  { theme := trivialTheme, custom_tokens := [], component_overrides := [],
    css_framework := "", reasoning := "" }

/-- A layout recommendation with accessibility score `2`, outside `[0,1]`. -/
def badLayout : LayoutRecommendation :=
  { pattern := default, confidence_score := 0, accessibility_score := 2,
    reason := "", css_framework := "" }

/-- An empty asset recommendation. -/
def noAssets : AssetRecommendation :=
  { assets := [], reasoning := "", confidence_score := 0, fallback_options := [] }

/-- A hand-built slide whose layout accessibility score is `2`, outside
`[0,1]`. -/
def badLayoutSlide : GeneratedSlide :=
  { id := "s", type := "t", title := "", content := "", layout := badLayout,
    assets := noAssets, style := trivialStyle, markdown := "", estimated_time := 0 }

/-- A layout recommendation with accessibility score `9/10`. -/
def okLayout : LayoutRecommendation :=
  { pattern := default, confidence_score := 0, accessibility_score := 9/10,
    reason := "", css_framework := "" }

/-- A hand-built slide with all aggregate inputs inside `[0,1]`. -/
def okSlide : GeneratedSlide :=
  { id := "s", type := "t", title := "", content := "", layout := okLayout,
    assets := noAssets, style := trivialStyle, markdown := "", estimated_time := 0 }

/-- A request whose content triggers exactly the hero, problem and action
recommendations. -/
def testReq : SlideGenerationRequest :=
  { content := "problem", audience := "general", presentation_type := "business",
    brand_guidelines := none, time_constraint := none, accessibility_requirements := none }

/-- The second slide (`problem`) the pipeline generates for `testReq`. -/
def probSlide : GeneratedSlide :=
  SlidevBuilderOrchestrator.buildSlide testReq
    (ContentIntelligenceEngine.analyzeContent "problem" "general") 1
    ContentIntelligenceEngine.problemRecommendation

/-! ## General lemmas -/

/-- Inserting with `insertDescBy` is a permutation of consing. -/
theorem insertDescBy_perm (key : α → ℚ) (a : α) (l : List α) :
    (insertDescBy key a l).Perm (a :: l) := by
  induction l with
  | nil => exact List.Perm.refl _
  | cons b t ih =>
    unfold insertDescBy
    split
    · exact (List.Perm.cons b ih).trans (List.Perm.swap a b t)
    · exact List.Perm.refl _

/-- `sortDescBy` permutes its input. -/
theorem sortDescBy_perm (key : α → ℚ) (l : List α) : (sortDescBy key l).Perm l := by
  induction l with
  | nil => exact List.Perm.refl _
  | cons a t ih => exact (insertDescBy_perm key a (sortDescBy key t)).trans (List.Perm.cons a ih)

/-- Membership in an `insertDescBy` result. -/
theorem mem_insertDescBy {key : α → ℚ} {a c : α} {l : List α} :
    c ∈ insertDescBy key a l ↔ c = a ∨ c ∈ l := by
  rw [(insertDescBy_perm key a l).mem_iff, List.mem_cons]

/-- `insertDescBy` preserves the descending-key pairwise invariant. -/
theorem pairwise_insertDescBy {key : α → ℚ} (a : α) {l : List α}
    (h : l.Pairwise (fun p q => key q ≤ key p)) :
    (insertDescBy key a l).Pairwise (fun p q => key q ≤ key p) := by
  induction l with
  | nil => simp [insertDescBy]
  | cons b t ih =>
    have h' := List.pairwise_cons.mp h
    unfold insertDescBy
    split_ifs with hab
    · rw [List.pairwise_cons]
      refine ⟨?_, ih h'.2⟩
      intro c hc
      rcases mem_insertDescBy.mp hc with rfl | hct
      · exact le_of_lt hab
      · exact h'.1 c hct
    · rw [List.pairwise_cons]
      refine ⟨?_, h⟩
      intro c hc
      rcases List.mem_cons.mp hc with rfl | hct
      · exact le_of_not_lt hab
      · exact (h'.1 c hct).trans (le_of_not_lt hab)

/-- `sortDescBy` really sorts: keys are pairwise descending. -/
theorem pairwise_sortDescBy (key : α → ℚ) (l : List α) :
    (sortDescBy key l).Pairwise (fun p q => key q ≤ key p) := by
  induction l with
  | nil => simp [sortDescBy]
  | cons a t ih => exact pairwise_insertDescBy a ih

/-- Two position-tagged entries of a duplicate-free list with equal payloads
are the same entry. -/
theorem enum_snd_inj {l : List α} (h : l.Nodup) {p q : Nat × α}
    (hp : p ∈ l.enum) (hq : q ∈ l.enum) (he : p.2 = q.2) : p = q := by
  rw [List.mem_enum_iff_get?] at hp hq
  obtain ⟨hlt, _⟩ := List.get?_eq_some.mp hp
  have h1 : p.1 = q.1 := List.get?_inj hlt h (by rw [hp, hq, he])
  exact Prod.ext h1 he

/-- `List.get?` on `enumFrom`. -/
theorem enumFrom_get? (l : List α) (n k : Nat) :
    (l.enumFrom n).get? k = (l.get? k).map (fun a => (n + k, a)) := by
  induction l generalizing n k with
  | nil => simp
  | cons a t ih =>
    cases k with
    | zero => simp [List.enumFrom]
    | succ k =>
      simp only [List.enumFrom, List.get?_cons_succ, ih]
      have h1 : n + 1 + k = n + (k + 1) := by omega
      rw [h1]

/-- `List.get?` on `enum`. -/
theorem enum_get? (l : List α) (k : Nat) :
    l.enum.get? k = (l.get? k).map (fun a => (k, a)) := by
  have h := enumFrom_get? l 0 k
  rw [Nat.zero_add] at h
  exact h

/-- Bounds on every element of a nonempty rational list bound its mean. -/
theorem list_mean_bounds (l : List ℚ) (lo hi : ℚ) (hne : l ≠ [])
    (h : ∀ x ∈ l, lo ≤ x ∧ x ≤ hi) :
    lo ≤ l.sum / l.length ∧ l.sum / l.length ≤ hi := by
  have hn : 0 < (l.length : ℚ) := by exact_mod_cast List.length_pos.mpr hne
  constructor
  · rw [le_div_iff₀ hn]
    have hs := List.card_nsmul_le_sum l lo (fun x hx => (h x hx).1)
    rw [nsmul_eq_mul] at hs
    linarith
  · rw [div_le_iff₀ hn]
    have hs := List.sum_le_card_nsmul l hi (fun x hx => (h x hx).2)
    rw [nsmul_eq_mul] at hs
    linarith

/-- Every recommendation list produced by `generateSlideRecommendations` is the
hero recommendation, then a content-dependent middle part, then the action
recommendation. -/
theorem generateSlideRecommendations_shape (content audience : String) :
    ∃ mid, ContentIntelligenceEngine.generateSlideRecommendations content audience =
      (ContentIntelligenceEngine.heroRecommendation :: mid) ++
        [ContentIntelligenceEngine.actionRecommendation] := by
  unfold ContentIntelligenceEngine.generateSlideRecommendations
  split_ifs <;> exact ⟨_, rfl⟩

/-- Every selected asset of `curateAssetsCore` passes the stored-flag filter. -/
theorem curateAssetsCore_flags (allAssets : List AssetMetadata) (query : AssetQuery) :
    ∀ a ∈ (AssetIntelligenceEngine.curateAssetsCore allAssets query).assets,
      a.brand_compliance = true ∧ a.cultural_appropriateness = true := by
  intro a ha
  obtain ⟨p, hp, rfl⟩ := List.mem_map.mp ha
  have h1 : p ∈ sortDescBy (fun p : Nat × AssetMetadata => p.2.semantic_score)
      (AssetIntelligenceEngine.compliantCandidates allAssets query) :=
    List.take_subset 5 _ hp
  have h2 : p ∈ AssetIntelligenceEngine.compliantCandidates allAssets query :=
    (sortDescBy_perm _ _).mem_iff.mp h1
  have h3 := (List.mem_filter.mp h2).2
  simp only [Bool.and_eq_true] at h3
  exact h3

/-! ## The claims -/

open ContentIntelligenceEngine AssetIntelligenceEngine SlidevBuilderOrchestrator

/-- C1: for every content string and audience value, the
`slide_recommendations` list produced by `analyzeContent` is non-empty, starts
with a `hero` recommendation, and ends with an `action` recommendation. -/
theorem C1_slide_recommendations_hero_first_action_last (content audience : String) :
    (analyzeContent content audience).slide_recommendations ≠ [] ∧
    ((analyzeContent content audience).slide_recommendations.head?.map
      SlideRecommendation.slide_type) = some "hero" ∧
    ((analyzeContent content audience).slide_recommendations.getLast?.map
      SlideRecommendation.slide_type) = some "action" := by
  obtain ⟨mid, hmid⟩ := generateSlideRecommendations_shape content audience
  have hrec : (analyzeContent content audience).slide_recommendations =
      generateSlideRecommendations content audience := rfl
  rw [hrec, hmid]
  refine ⟨by simp, rfl, ?_⟩
  rw [List.getLast?_append]
  rfl

/-- C2: for every content string and audience, the cognitive load score equals
`min 10 (word_count / 50)` (word count from splitting on single spaces), hence
is at most 10, and the content density is the fixed threshold function of the
score (`> 7` high, `> 4` medium, else low). -/
theorem C2_cognitive_load_and_density (content audience : String) :
    (analyzeContent content audience).content_structure.cognitive_load_score =
      min 10 ((jsSplitChar ' ' content).length / 50) ∧
    (analyzeContent content audience).content_structure.cognitive_load_score ≤ 10 ∧
    (analyzeContent content audience).content_density =
      (if 7 < (analyzeContent content audience).content_structure.cognitive_load_score then
        "high"
       else if 4 < (analyzeContent content audience).content_structure.cognitive_load_score then
        "medium"
       else "low") := by
  refine ⟨rfl, ?_, rfl⟩
  exact min_le_left _ _

/-- C3 (counterexample): the adjusted semantic score is not clamped to `[0,1]`.
For a premium-license candidate with reported score `0` and a query that does
not mention "premium", the 0.05 penalty drives the adjusted score to `-1/20`,
and `Math.min(1.0, score)` provides no lower clamp. -/
theorem C3_counterexample :
    (scoreAsset plainQuery premiumZeroAsset).semantic_score = -(1/20) ∧
    ¬ (0 ≤ (scoreAsset plainQuery premiumZeroAsset).semantic_score) := by
  constructor
  · with_unfolding_all rfl
  · with_unfolding_all decide

/-- C3 (amended): the adjusted semantic score is clamped above to at most 1 and
never drops more than 0.05 below the incoming semantic score (clamped at 1), so
it lies in `[0,1]` whenever the incoming score is at least 0.05; the layout
accessibility score is in `[0,1]` for every layout pattern and audience. -/
theorem C3_score_bounds (asset : AssetMetadata) (query : AssetQuery)
    (layout : LayoutPattern) (audience : String) :
    (scoreAsset query asset).semantic_score ≤ 1 ∧
    min 1 (asset.semantic_score - 5/100) ≤ (scoreAsset query asset).semantic_score ∧
    (5/100 ≤ asset.semantic_score → 0 ≤ (scoreAsset query asset).semantic_score) ∧
    0 ≤ LayoutOptimizationEngine.calculateAccessibilityScore layout audience ∧
    LayoutOptimizationEngine.calculateAccessibilityScore layout audience ≤ 1 := by
  refine ⟨?_, ?_, ?_, ?_, ?_⟩
  · simp only [scoreAsset]
    split_ifs <;> exact min_le_left _ _
  · simp only [scoreAsset]
    split_ifs <;> exact min_le_min le_rfl (by linarith)
  · intro h
    simp only [scoreAsset]
    split_ifs <;> exact le_min (by norm_num) (by linarith)
  · simp only [LayoutOptimizationEngine.calculateAccessibilityScore]
    split_ifs <;> exact le_min (by norm_num) (by norm_num)
  · simp only [LayoutOptimizationEngine.calculateAccessibilityScore]
    split_ifs <;> exact min_le_left _ _

/-- C3 (witness): the bounds evaluated at a concrete compliant candidate with
incoming score `9/10 ≥ 1/20`. -/
theorem C3_score_bounds_witness :
    (5/100 ≤ (mkTestAsset "a4" (9/10)).semantic_score) ∧
    0 ≤ (scoreAsset plainQuery (mkTestAsset "a4" (9/10))).semantic_score :=
  ⟨by with_unfolding_all decide,
   (C3_score_bounds (mkTestAsset "a4" (9/10)) plainQuery default "general").2.2.1
     (by with_unfolding_all decide)⟩

/-- C4: every asset-curation result selects at most 5 assets, all of them
brand-compliant and culturally appropriate (by their stored flags), offers at
most 3 fallback options, and no fallback entry is a selected entry (entries
are the position-tagged scored candidates, modelling JS object identity; at
the value level the lists are disjoint whenever the scored candidates are
duplicate-free, which holds for the mock sources since their ids differ). -/
theorem C4_curation_bounds_and_disjointness (allAssets : List AssetMetadata)
    (query : AssetQuery) :
    (curateAssetsCore allAssets query).assets.length ≤ 5 ∧
    (∀ a ∈ (curateAssetsCore allAssets query).assets,
      a.brand_compliance = true ∧ a.cultural_appropriateness = true) ∧
    (curateAssetsCore allAssets query).fallback_options.length ≤ 3 ∧
    (∀ p ∈ fallbackCandidates allAssets query, p ∉ selectedCandidates allAssets query) ∧
    ((scoreAssets allAssets query).Nodup →
      ∀ a ∈ (curateAssetsCore allAssets query).fallback_options,
        a ∉ (curateAssetsCore allAssets query).assets) := by
  refine ⟨?_, ?_, ?_, ?_, ?_⟩
  · show ((selectedCandidates allAssets query).map Prod.snd).length ≤ 5
    rw [List.length_map]
    unfold selectedCandidates
    rw [List.length_take]
    exact min_le_left _ _
  · exact curateAssetsCore_flags allAssets query
  · show ((fallbackCandidates allAssets query).map Prod.snd).length ≤ 3
    rw [List.length_map]
    unfold fallbackCandidates
    rw [List.length_take]
    exact min_le_left _ _
  · intro p hp
    unfold fallbackCandidates at hp
    have h1 := (List.mem_filter.mp (List.take_subset 3 _ hp)).2
    simpa using h1
  · intro hnd a hfb hsel
    obtain ⟨p, hp, hpa⟩ := List.mem_map.mp hfb
    obtain ⟨q, hq, hqa⟩ := List.mem_map.mp hsel
    have hpscored : p ∈ scoredCandidates allAssets query := by
      unfold fallbackCandidates at hp
      exact (List.mem_filter.mp (List.take_subset 3 _ hp)).1
    have hqscored : q ∈ scoredCandidates allAssets query := by
      have h1 : q ∈ sortDescBy (fun p => p.2.semantic_score)
          (compliantCandidates allAssets query) := List.take_subset 5 _ hq
      have h2 : q ∈ compliantCandidates allAssets query := (sortDescBy_perm _ _).mem_iff.mp h1
      exact (List.mem_filter.mp h2).1
    have hpq : p = q := enum_snd_inj hnd hpscored hqscored (hpa.trans hqa.symm)
    unfold fallbackCandidates at hp
    have hnotin := (List.mem_filter.mp (List.take_subset 3 _ hp)).2
    rw [hpq] at hnotin
    simp at hnotin
    exact hnotin hq

/-- C4 (witness): on nine concrete candidates the scored list is
duplicate-free and the returned fallback options share no entry with the
returned assets. -/
theorem C4_curation_witness :
    (scoreAssets nineAssets plainQuery).Nodup ∧
    (∀ a ∈ (curateAssetsCore nineAssets plainQuery).fallback_options,
      a ∉ (curateAssetsCore nineAssets plainQuery).assets) := by
  have hnd : (scoreAssets nineAssets plainQuery).Nodup := by with_unfolding_all decide
  exact ⟨hnd, (C4_curation_bounds_and_disjointness nineAssets plainQuery).2.2.2.2 hnd⟩

/-- C5 (counterexample): `fallback_options` is not the next-best-by-score
non-selected candidates.  With nine compliant candidates whose four lowest
scores sit first in source order, the non-selected candidate `a3` (score
`3/20`) outscores every returned fallback entry yet is absent: the source
takes the first three non-selected candidates in original order, not the
highest-scoring ones. -/
theorem C5_counterexample :
    ((curateAssetsCore nineAssets plainQuery).assets.map AssetMetadata.id) =
      ["a4", "a5", "a6", "a7", "a8"] ∧
    ((curateAssetsCore nineAssets plainQuery).fallback_options.map AssetMetadata.id) =
      ["a0", "a1", "a2"] ∧
    mkTestAsset "a3" (3/20) ∈ scoreAssets nineAssets plainQuery ∧
    mkTestAsset "a3" (3/20) ∉ (curateAssetsCore nineAssets plainQuery).assets ∧
    mkTestAsset "a3" (3/20) ∉ (curateAssetsCore nineAssets plainQuery).fallback_options ∧
    (∀ a ∈ (curateAssetsCore nineAssets plainQuery).fallback_options,
      a.semantic_score < (mkTestAsset "a3" (3/20)).semantic_score) := by
  with_unfolding_all decide

/-- C5 (amended): `assets` is the top 5 of the compliant scored candidates in
descending score order — it is sorted descending and every non-selected
compliant candidate scores no higher than any selected one — while
`fallback_options` is the first up to 3 non-selected scored candidates in
their original source order (compliant or not), not the next-best by score. -/
theorem C5_selection_and_fallback_order (allAssets : List AssetMetadata) (query : AssetQuery) :
    (curateAssetsCore allAssets query).assets = (selectedCandidates allAssets query).map Prod.snd ∧
    ((curateAssetsCore allAssets query).assets.Pairwise
      (fun a b => b.semantic_score ≤ a.semantic_score)) ∧
    (∀ p ∈ compliantCandidates allAssets query, p ∉ selectedCandidates allAssets query →
      ∀ q ∈ selectedCandidates allAssets query, p.2.semantic_score ≤ q.2.semantic_score) ∧
    (curateAssetsCore allAssets query).fallback_options =
      (((scoredCandidates allAssets query).filter
        (fun p => !((selectedCandidates allAssets query).contains p))).take 3).map Prod.snd := by
  refine ⟨rfl, ?_, ?_, rfl⟩
  · show ((selectedCandidates allAssets query).map Prod.snd).Pairwise
        (fun a b => b.semantic_score ≤ a.semantic_score)
    rw [List.pairwise_map]
    exact List.Pairwise.sublist (List.take_sublist 5 _)
      (pairwise_sortDescBy (fun p : Nat × AssetMetadata => p.2.semantic_score) _)
  · intro p hpc hpns q hq
    have hsorted := pairwise_sortDescBy (fun p : Nat × AssetMetadata => p.2.semantic_score)
      (compliantCandidates allAssets query)
    have hpS : p ∈ sortDescBy (fun p : Nat × AssetMetadata => p.2.semantic_score)
        (compliantCandidates allAssets query) := (sortDescBy_perm _ _).mem_iff.mpr hpc
    rw [← List.take_append_drop 5 (sortDescBy (fun p : Nat × AssetMetadata => p.2.semantic_score)
      (compliantCandidates allAssets query))] at hsorted hpS
    have h3 := (List.pairwise_append.mp hsorted).2.2
    rcases List.mem_append.mp hpS with hin | hin
    · exact absurd hin hpns
    · exact h3 q hq p hin

/-- C5 (witness): the ordering facts evaluated on the nine concrete
candidates, for the non-selected compliant candidate `a0`. -/
theorem C5_selection_witness :
    ((0, mkTestAsset "a0" 0) ∈ compliantCandidates nineAssets plainQuery) ∧
    ((0, mkTestAsset "a0" 0) ∉ selectedCandidates nineAssets plainQuery) ∧
    (∀ q ∈ selectedCandidates nineAssets plainQuery,
      (0, mkTestAsset "a0" 0).2.semantic_score ≤ q.2.semantic_score) := by
  have h1 : (0, mkTestAsset "a0" 0) ∈ compliantCandidates nineAssets plainQuery := by
    with_unfolding_all decide
  have h2 : (0, mkTestAsset "a0" 0) ∉ selectedCandidates nineAssets plainQuery := by
    with_unfolding_all decide
  exact ⟨h1, h2, (C5_selection_and_fallback_order nineAssets plainQuery).2.2.1 _ h1 h2⟩

/-- C6 (counterexample): a source-returned candidate tagged `["political"]`
does appear in `assets`.  For the query content `political`, the Iconify mock
returns a candidate tagged `["political"]` with the hardcoded
`cultural_appropriateness := true` flag; `curateAssets` filters on that stored
flag and never invokes `checkCulturalAppropriateness`, so the candidate is
selected (first, with score `9/10`) even though `checkCulturalAppropriateness`
returns `false` on it. -/
theorem C6_counterexample :
    (curateAssets polQuery).assets.head? = some iconifyPolitical ∧
    iconifyPolitical.tags = ["political"] ∧
    checkCulturalAppropriateness iconifyPolitical polQuery.content_context = false ∧
    iconifyPolitical ∈ (curateAssets polQuery).assets := by
  refine ⟨?_, rfl, ?_, ?_⟩
  · with_unfolding_all decide
  · with_unfolding_all decide
  · with_unfolding_all decide

/-- C6 (amended): `checkCulturalAppropriateness` does return `false` for every
asset whose alt-text or tags contain a sensitive term, but `curateAssets` never
calls it: selection filters only on the stored `cultural_appropriateness`
flag, so a sensitive-tagged candidate whose flag is `true` (as all mock source
results are) can appear in `assets`. -/
theorem C6_cultural_check_behaviour (asset : AssetMetadata) (context : String)
    (allAssets : List AssetMetadata) (query : AssetQuery) :
    ((["religious", "political", "controversial"].any (fun term =>
        jsIncludes (jsToLower asset.alt_text ++ " " ++
          jsToLower (String.intercalate " " asset.tags)) term)) = true →
      checkCulturalAppropriateness asset context = false) ∧
    (∀ a ∈ (curateAssetsCore allAssets query).assets, a.cultural_appropriateness = true) := by
  constructor
  · intro h
    simp only [checkCulturalAppropriateness]
    rw [h]
    rfl
  · intro a ha
    exact (curateAssetsCore_flags allAssets query a ha).2

/-- C6 (witness): the sensitive-term check evaluated on the political-tagged
Iconify candidate. -/
theorem C6_cultural_check_witness :
    checkCulturalAppropriateness iconifyPolitical "political" = false :=
  (C6_cultural_check_behaviour iconifyPolitical "political" [] plainQuery).1 (by decide)

/-- C7: a failure of any single asset-source search is absorbed locally: the
curation always returns a result (never propagates an exception), and a
failing source contributes exactly the empty candidate list, leaving the
result built from the remaining sources. -/
theorem C7_source_failure_absorbed
    (u i f : Except String (List AssetMetadata)) (e : String) (query : AssetQuery) :
    (∃ r, curateAssetsFromSources u i f query = Except.ok r) ∧
    curateAssetsFromSources (Except.error e) i f query =
      Except.ok (curateAssetsCore
        ([] ++ searchSourceCaught i ++ searchSourceCaught f) query) ∧
    curateAssetsFromSources u (Except.error e) f query =
      Except.ok (curateAssetsCore
        (searchSourceCaught u ++ [] ++ searchSourceCaught f) query) ∧
    curateAssetsFromSources u i (Except.error e) query =
      Except.ok (curateAssetsCore
        (searchSourceCaught u ++ searchSourceCaught i ++ []) query) :=
  ⟨⟨_, rfl⟩, rfl, rfl, rfl⟩

/-- C8: the pipeline is deterministic: identical requests produce identical
results (byte-identical markdown, identical metadata and metrics), and slide
ids are purely positional (`slide_{k+1}` for the k-th slide), with no hidden
source of nondeterminism. -/
theorem C8_pipeline_deterministic (r1 r2 : SlideGenerationRequest) (h : r1 = r2) :
    generateSlideDeck r1 = generateSlideDeck r2 ∧
    (generateSlideDeck r1).slides.map GeneratedSlide.markdown =
      (generateSlideDeck r2).slides.map GeneratedSlide.markdown ∧
    (generateSlideDeck r1).presentation_metadata = (generateSlideDeck r2).presentation_metadata ∧
    (generateSlideDeck r1).quality_metrics = (generateSlideDeck r2).quality_metrics ∧
    (∀ k s, (generateSlideDeck r1).slides.get? k = some s →
      s.id = "slide_" ++ toString (k + 1)) := by
  subst h
  refine ⟨rfl, rfl, rfl, rfl, ?_⟩
  intro k s hks
  have hrw : (generateSlideDeck r1).slides.get? k =
      ((ContentIntelligenceEngine.analyzeContent r1.content r1.audience).slide_recommendations.enum.map
        (fun q => buildSlide r1
          (ContentIntelligenceEngine.analyzeContent r1.content r1.audience) q.1 q.2)).get? k := rfl
  rw [hrw, List.get?_map, enum_get?, Option.map_map] at hks
  obtain ⟨rec, hrec, hfs⟩ := Option.map_eq_some'.mp hks
  rw [← hfs]
  rfl

/-- C8 (witness): determinism and the positional id, evaluated on the concrete
request whose content is `problem` (the second slide has id `slide_2`). -/
theorem C8_pipeline_deterministic_witness :
    generateSlideDeck testReq = generateSlideDeck testReq ∧
    probSlide.id = "slide_2" := by
  have h := C8_pipeline_deterministic testReq testReq rfl
  refine ⟨h.1, ?_⟩
  have h2 := h.2.2.2.2 1 probSlide (by with_unfolding_all rfl)
  rw [h2]
  rfl

/-- C9 (counterexample): `overall_score` is not the clamped mean.  For a slide
list whose layout accessibility score is `2`, the four sub-scores are `7/10`,
`6/10`, `2` and `1`, the computed overall score is their unclamped mean
`43/40 > 1`, whereas the claimed clamp to `[0,1]` would yield `1`. -/
theorem C9_counterexample :
    (calculateQualityMetrics [badLayoutSlide]).overall_score = 43/40 ∧
    1 < (calculateQualityMetrics [badLayoutSlide]).overall_score ∧
    (calculateQualityMetrics [badLayoutSlide]).overall_score ≠
      max 0 (min 1 (((calculateQualityMetrics [badLayoutSlide]).content_quality +
        (calculateQualityMetrics [badLayoutSlide]).visual_appeal +
        (calculateQualityMetrics [badLayoutSlide]).accessibility +
        (calculateQualityMetrics [badLayoutSlide]).brand_alignment) / 4)) := by
  refine ⟨?_, ?_, ?_⟩
  · with_unfolding_all rfl
  · with_unfolding_all decide
  · with_unfolding_all decide

/-- C9 (amended): `overall_score` equals the unweighted arithmetic mean of the
four sub-scores, with no clamping applied; for every nonempty slide list whose
per-slide layout accessibility and theme brand-alignment scores lie in
`[0,1]` — as all pipeline-generated slides do — the mean itself lies in
`[0,1]`. -/
theorem C9_overall_score_mean (slides : List GeneratedSlide) :
    (calculateQualityMetrics slides).overall_score =
      ((calculateQualityMetrics slides).content_quality +
        (calculateQualityMetrics slides).visual_appeal +
        (calculateQualityMetrics slides).accessibility +
        (calculateQualityMetrics slides).brand_alignment) / 4 ∧
    (slides ≠ [] →
      (∀ s ∈ slides, (0 ≤ s.layout.accessibility_score ∧ s.layout.accessibility_score ≤ 1) ∧
        (0 ≤ s.style.theme.brand_alignment ∧ s.style.theme.brand_alignment ≤ 1)) →
      0 ≤ (calculateQualityMetrics slides).overall_score ∧
        (calculateQualityMetrics slides).overall_score ≤ 1) := by
  refine ⟨rfl, ?_⟩
  intro hne hbound
  have hmapne : ∀ (f : GeneratedSlide → ℚ), slides.map f ≠ [] := by
    intro f h
    exact hne (List.map_eq_nil_iff.mp h)
  have hlen : ∀ (f : GeneratedSlide → ℚ), ((slides.map f).length : ℚ) = (slides.length : ℚ) := by
    intro f
    rw [List.length_map]
  have hc := list_mean_bounds
    (slides.map (fun slide => if 50 < slide.content.length then (9:ℚ)/10 else 7/10))
    (7/10) (9/10) (hmapne _) ?hc
  case hc =>
    intro x hx
    obtain ⟨s, _, rfl⟩ := List.mem_map.mp hx
    split_ifs <;> norm_num
  have hv := list_mean_bounds
    (slides.map (fun slide => if 0 < slide.assets.assets.length then (9:ℚ)/10 else 6/10))
    (6/10) (9/10) (hmapne _) ?hv
  case hv =>
    intro x hx
    obtain ⟨s, _, rfl⟩ := List.mem_map.mp hx
    split_ifs <;> norm_num
  have ha := list_mean_bounds
    (slides.map (fun slide => slide.layout.accessibility_score)) 0 1 (hmapne _) ?ha
  case ha =>
    intro x hx
    obtain ⟨s, hs, rfl⟩ := List.mem_map.mp hx
    exact (hbound s hs).1
  have hb := list_mean_bounds
    (slides.map (fun slide => slide.style.theme.brand_alignment)) 0 1 (hmapne _) ?hb
  case hb =>
    intro x hx
    obtain ⟨s, hs, rfl⟩ := List.mem_map.mp hx
    exact (hbound s hs).2
  rw [hlen] at hc hv ha hb
  show 0 ≤ (_ + _ + _ + _) / 4 ∧ (_ + _ + _ + _) / 4 ≤ 1
  constructor
  · have h1 := hc.1
    have h2 := hv.1
    have h3 := ha.1
    have h4 := hb.1
    linarith
  · have h1 := hc.2
    have h2 := hv.2
    have h3 := ha.2
    have h4 := hb.2
    linarith

/-- C9 (witness): the mean bounds evaluated on a concrete one-slide list with
in-range accessibility and brand scores. -/
theorem C9_overall_score_mean_witness :
    ([okSlide] ≠ ([] : List GeneratedSlide)) ∧
    0 ≤ (calculateQualityMetrics [okSlide]).overall_score ∧
    (calculateQualityMetrics [okSlide]).overall_score ≤ 1 := by
  refine ⟨by decide, ?_⟩
  exact (C9_overall_score_mean [okSlide]).2 (by decide) (by with_unfolding_all decide)

/-- C10: the orchestrator always calls the layout engine with
`hasVisuals = true`, so every pipeline-generated slide of type `problem` or
`solution` carries the `content-split` pattern with confidence `9/10`; the
no-visuals branch (`hero-centered`, confidence `8/10`) is unreachable from the
pipeline. -/
theorem C10_problem_solution_layout (request : SlideGenerationRequest) (s : GeneratedSlide)
    (hs : s ∈ (generateSlideDeck request).slides)
    (ht : s.type = "problem" ∨ s.type = "solution") :
    s.layout.pattern = LayoutOptimizationEngine.findLayout "content-split" ∧
    s.layout.pattern.name = "content-split" ∧
    s.layout.confidence_score = 9/10 := by
  have hs' : s ∈ (ContentIntelligenceEngine.analyzeContent request.content
      request.audience).slide_recommendations.enum.map
      (fun q => buildSlide request
        (ContentIntelligenceEngine.analyzeContent request.content request.audience) q.1 q.2) := hs
  obtain ⟨p, hp, rfl⟩ := List.mem_map.mp hs'
  have htype : (buildSlide request
      (ContentIntelligenceEngine.analyzeContent request.content request.audience)
      p.1 p.2).type = p.2.slide_type := rfl
  rw [htype] at ht
  have hlay : (buildSlide request
      (ContentIntelligenceEngine.analyzeContent request.content request.audience)
      p.1 p.2).layout = LayoutOptimizationEngine.recommendLayout p.2.slide_type
        (ContentIntelligenceEngine.analyzeContent request.content
          request.audience).content_density request.audience true := rfl
  rw [hlay]
  rcases ht with h | h <;> rw [h] <;> exact ⟨rfl, rfl, rfl⟩

/-- C10 (witness): for the request with content `problem`, the generated
problem slide carries the `content-split` pattern with confidence `9/10`. -/
theorem C10_problem_solution_layout_witness :
    probSlide ∈ (generateSlideDeck testReq).slides ∧
    probSlide.type = "problem" ∧
    probSlide.layout.pattern.name = "content-split" ∧
    probSlide.layout.confidence_score = 9/10 := by
  have hmem : probSlide ∈ (generateSlideDeck testReq).slides :=
    List.get?_mem (show (generateSlideDeck testReq).slides.get? 1 = some probSlide by
      with_unfolding_all rfl)
  have h := C10_problem_solution_layout testReq probSlide hmem (Or.inl rfl)
  exact ⟨hmem, rfl, h.2.1, h.2.2⟩
